import Mathlib

/-!
Verification of server_mjs.py (yonutiyo/weft), a single-file static HTTP
development server built on SimpleHTTPRequestHandler from the CPython
standard library (http.server).  We shallowly embed:

- the MIME override table of MJSHandler (class attribute extensions_map,
  a dict merge of the inherited SimpleHTTPRequestHandler.extensions_map
  with four override entries);
- extension extraction, following posixpath.splitext from CPython
  (genericpath._splitext with separator '/' and extension separator '.');
- content-type determination, following
  SimpleHTTPRequestHandler.guess_type from CPython (3.9 and later):
  exact-case table lookup, then lowercased lookup, then the platform
  mimetypes.guess_type fallback (abstracted as a function parameter,
  since it is platform/configuration dependent), then
  application/octet-stream;
- header finalization, following MJSHandler.end_headers, which appends
  three cache-suppression headers and then flushes;
- the startup block under the main guard, as an effect trace.
-/

/-- The four override entries added by MJSHandler on top of the inherited
table: .mjs, .js, .json and the empty extension (source lines 6-12). -/
def override_entries : List (String × String) :=
  [(".mjs", "application/javascript"),
   (".js", "application/javascript"),
   (".json", "application/json"),
   ("", "application/octet-stream")]

/-- The extensions_map class attribute of MJSHandler as an association
list: the dict merge of the inherited base table with override_entries,
where the override entries win.  List.lookup takes the first hit, so
placing the overrides in front realizes the dict-update semantics. -/
def extensions_map (base : List (String × String)) : List (String × String) :=
  override_entries ++ base

/-- The inherited SimpleHTTPRequestHandler.extensions_map of CPython 3.9
and later: the four compressed-encoding entries (http/server.py). -/
def base_extensions_map : List (String × String) :=
  [(".gz", "application/gzip"),
   (".Z", "application/octet-stream"),
   (".bz2", "application/x-bzip2"),
   (".xz", "application/x-xz")]

/-- A platform mimetypes table that knows nothing (mimetypes.guess_type
returning None on every path). -/
def no_mime : String → Option String := fun _ => none

/-- Lowercasing of one character, the ASCII fragment of str.lower in
Python (sufficient here: every key of the tables involved is ASCII). -/
def charLower (c : Char) : Char :=
  if 65 ≤ c.toNat ∧ c.toNat ≤ 90 then Char.ofNat (c.toNat + 32) else c

/-- Lowercasing of a string, as ext.lower() in guess_type. -/
def strLower (s : String) : String :=
  ⟨s.data.map charLower⟩

/-- Index of the last occurrence of a character in a character list, or
-1 when absent: the behavior of str.rfind in Python, which splitext uses
for the last '/' and the last '.'. -/
def rfindIdx (p : List Char) (c : Char) : Int :=
  (p.length : Int) - 1 - (p.reverse.indexOf c : Int)

/-- Extension part of posixpath.splitext (genericpath._splitext): the
suffix from the last dot onward, provided the last dot lies strictly
after the last slash and at least one character between the start of the
final component and that dot is not itself a dot (leading dots of the
final component never begin an extension); otherwise empty. -/
def splitextExtL (p : List Char) : List Char :=
  let sepIndex : Int := rfindIdx p '/'
  let dotIndex : Int := rfindIdx p '.'
  if sepIndex < dotIndex then
    let filename := (p.drop (sepIndex + 1).toNat).take (dotIndex - (sepIndex + 1)).toNat
    if filename.all (fun ch => ch = '.') then [] else p.drop dotIndex.toNat
  else []

/-- String version of the splitext extension extraction applied by
guess_type to the path being served. -/
def splitextExt (p : String) : String :=
  ⟨splitextExtL p.data⟩

/-- Content-type flow of SimpleHTTPRequestHandler.guess_type over a given
table: exact-case lookup of the splitext extension, then lowercased
lookup, then the platform mimetypes guess on the full path, then
application/octet-stream. -/
def guess_type_from (table : List (String × String))
    (mime : String → Option String) (path : String) : String :=
  let ext := splitextExt path
  match table.lookup ext with
  | some t => t
  | none =>
    match table.lookup (strLower ext) with
    | some t => t
    | none =>
      match mime path with
      | some t => t
      | none => "application/octet-stream"

/-- Content type computed by MJSHandler for a path: the guess_type flow
over its extensions_map (inherited base merged with the overrides). -/
def guess_type (base : List (String × String))
    (mime : String → Option String) (path : String) : String :=
  guess_type_from (extensions_map base) mime path

/-- The three cache-suppression headers sent by MJSHandler.end_headers
(source lines 15-19), in source order. -/
def cache_headers : List (String × String) :=
  [("Cache-Control", "no-store, must-revalidate"),
   ("Pragma", "no-cache"),
   ("Expires", "0")]

/-- Header finalization of MJSHandler: end_headers appends the three
cache-suppression headers to whatever headers the response path sent so
far, then the inherited end_headers flushes the buffer.  Every response
path of the inherited handler (send_head for files, list_directory,
redirects, and send_error for 404/403 and the rest) finalizes its
headers through this method. -/
def end_headers (sent : List (String × String)) : List (String × String) :=
  sent ++ cache_headers

/-- Finalized headers of a successful file serve: send_head sends the
content type from guess_type, the length and the modification time, then
ends headers. -/
def success_response_headers (base : List (String × String))
    (mime : String → Option String) (path clen lastmod : String) :
    List (String × String) :=
  end_headers
    [("Content-type", guess_type base mime path),
     ("Content-Length", clen),
     ("Last-Modified", lastmod)]

/-- Finalized headers of an error response: send_error sends the error
content type, the length of the error body, and a close marker, then
ends headers. -/
def error_response_headers (ctype clen : String) : List (String × String) :=
  end_headers
    [("Connection", "close"), ("Content-Type", ctype), ("Content-Length", clen)]

/-- One observable effect of the startup block of server_mjs.py. -/
inductive Effect where
  | chdir (dir : String)
  | stdout (line : String)
  | tcpBind (host : String) (port : Nat)
  | serve (root : String)
deriving DecidableEq

/-- Outcome of the two fallible system calls the startup block performs:
entering the script directory (os.chdir) and binding the listening
socket (the ThreadingHTTPServer constructor). -/
structure SysEnv where
  chdir_ok : Bool
  bind_ok : Bool

/-- Effect trace of the block under the main guard (source lines 21-26),
given the directory containing the script (dirname of abspath of the
script file) and the outcomes of the system calls.  In source order:
os.chdir into the script directory, the print of the startup line (with
os.getcwd() now equal to the script directory, and port bound to 5500),
then the ThreadingHTTPServer constructor binding localhost:5500 and
serve_forever serving with the working directory as root.  A failing
call raises an uncaught exception: no later effect happens and the
interpreter exits with a non-zero status, modeled by the Bool component
(true means the process died with a non-zero status). -/
def server_main (script_dir : String) (env : SysEnv) : List Effect × Bool :=
  if env.chdir_ok then
    let port : Nat := 5500
    let started : List Effect :=
      [Effect.chdir script_dir,
       Effect.stdout ("Serving " ++ script_dir ++ " on http://localhost:" ++ toString port)]
    if env.bind_ok then
      (started ++ [Effect.tcpBind "localhost" port, Effect.serve script_dir], false)
    else
      (started, true)
  else
    ([], true)

/-- Lines written to standard output along an effect trace. -/
def stdoutLines (es : List Effect) : List String :=
  es.filterMap (fun e =>
    match e with
    | Effect.stdout s => some s
    | _ => none)

/-- Test for a socket-bind effect. -/
def isBind (e : Effect) : Bool :=
  match e with
  | Effect.tcpBind _ _ => true
  | _ => false

/-- State shared by the request handlers: the only process-wide data the
handlers consult is the extensions_map class attribute. -/
structure ServerState where
  table : List (String × String)

/-- Handling of one request, as far as shared state is concerned: the
handler reads the table to compute the content type and performs no
assignment to any shared attribute (MJSHandler defines no mutating
statement), so the state after the request is the state before it. -/
def handle_request (s : ServerState) (mime : String → Option String)
    (path : String) : ServerState × String :=
  (s, guess_type_from s.table mime path)

/-- Sequential composition of any number of requests against the shared
state, each observing the state left by the previous one and returning
its content type. -/
def runRequests (s : ServerState) (mime : String → Option String) :
    List String → ServerState × List String
  | [] => (s, [])
  | p :: ps =>
    let s1 := handle_request s mime p
    let rest := runRequests s1.1 mime ps
    (rest.1, s1.2 :: rest.2)

/-- Modelled from the spec: the extension-extraction rule as the spec
words it, the substring after the final dot of the path (kept with its
dot so that it can meet the table keys, which carry dots), or the empty
string when the path has no dot. -/
def spec_extract_ext (p : String) : String :=
  let dotIndex := rfindIdx p.data '.'
  if dotIndex < 0 then "" else ⟨p.data.drop dotIndex.toNat⟩

/-- Modelled from the spec: the content-type determination as the spec
words it, with spec_extract_ext deciding the table entry: look the
extracted extension up in the override table, fall back to the platform
table, then to the generic binary type. -/
def spec_guess_type (mime : String → Option String) (p : String) : String :=
  match override_entries.lookup (spec_extract_ext p) with
  | some t => t
  | none =>
    match mime p with
    | some t => t
    | none => "application/octet-stream"

example : splitextExt "/app.mjs" = ".mjs" := by decide
example : splitextExt "/.js" = "" := by decide
example : splitextExt "/dir.v1/file" = "" := by decide
example : splitextExt "/a.tar.gz" = ".gz" := by decide
example : guess_type base_extensions_map no_mime "/app.mjs" = "application/javascript" := by decide
example : guess_type base_extensions_map no_mime "/x" = "application/octet-stream" := by decide
example : guess_type base_extensions_map no_mime "/a.MJS" = "application/javascript" := by decide

/-- A platform mimetypes table answering text/plain on every path, used
to exhibit divergence from the platform fallback. -/
def platform_text_plain : String → Option String := fun _ => some "text/plain"

/-- A platform mimetypes table answering text/css on every path. -/
def platform_css : String → Option String := fun _ => some "text/css"

lemma lookup_append_of_none {k : String} {l1 l2 : List (String × String)}
    (h : l1.lookup k = none) : (l1 ++ l2).lookup k = l2.lookup k := by
  induction l1 with
  | nil => rfl
  | cons a l ih =>
    obtain ⟨ka, va⟩ := a
    simp only [List.cons_append, List.lookup] at h ⊢
    cases hk : (k == ka)
    · simp only [hk] at h ⊢
      exact ih h
    · simp only [hk] at h
      exact Option.noConfusion h

lemma override_lookup_lower_none {e : String}
    (h : override_entries.lookup (strLower e) = none) :
    override_entries.lookup e = none := by
  by_cases h1 : e = ".mjs"
  · subst h1; revert h; decide
  · by_cases h2 : e = ".js"
    · subst h2; revert h; decide
    · by_cases h3 : e = ".json"
      · subst h3; revert h; decide
      · by_cases h4 : e = ""
        · subst h4; revert h; decide
        · have e1 : (e == ".mjs") = false := beq_eq_false_iff_ne.mpr h1
          have e2 : (e == ".js") = false := beq_eq_false_iff_ne.mpr h2
          have e3 : (e == ".json") = false := beq_eq_false_iff_ne.mpr h3
          have e4 : (e == "") = false := beq_eq_false_iff_ne.mpr h4
          simp [override_entries, List.lookup, e1, e2, e3, e4]

/-- Claim C1: for every request whose path has extension .mjs or .js the
content type is exactly application/javascript, and for extension .json
it is exactly application/json, whatever the inherited base table and
the platform mimetypes table are: the override entries are hit by the
first, exact-case lookup before any fallback is consulted. -/
theorem mjs_js_json_override (base : List (String × String))
    (mime : String → Option String) (p : String) :
    ((splitextExt p = ".mjs" ∨ splitextExt p = ".js") →
      guess_type base mime p = "application/javascript") ∧
    (splitextExt p = ".json" → guess_type base mime p = "application/json") := by
  constructor
  · rintro (h | h) <;>
      simp [guess_type, guess_type_from, extensions_map, override_entries, h, List.lookup]
  · intro h
    simp [guess_type, guess_type_from, extensions_map, override_entries, h, List.lookup]

/-- Witness for C1 at the paths /app.mjs and /data.json. -/
theorem mjs_js_json_override_witness :
    guess_type base_extensions_map no_mime "/app.mjs" = "application/javascript" ∧
    guess_type base_extensions_map no_mime "/data.json" = "application/json" :=
  ⟨(mjs_js_json_override base_extensions_map no_mime "/app.mjs").1 (Or.inl (by decide)),
   (mjs_js_json_override base_extensions_map no_mime "/data.json").2 (by decide)⟩

/-- Claim C2: every response carries the three cache-suppression headers
with their exact values, because every response path finalizes its
headers through end_headers, which appends them to whatever was sent;
in particular both the successful file-serve header set and the error
header set (404, 403 and the rest) contain all three. -/
theorem cache_suppression_on_all_responses :
    (∀ sent : List (String × String),
      ("Cache-Control", "no-store, must-revalidate") ∈ end_headers sent ∧
      ("Pragma", "no-cache") ∈ end_headers sent ∧
      ("Expires", "0") ∈ end_headers sent) ∧
    (∀ base mime path clen lastmod,
      ("Cache-Control", "no-store, must-revalidate") ∈
          success_response_headers base mime path clen lastmod ∧
      ("Pragma", "no-cache") ∈ success_response_headers base mime path clen lastmod ∧
      ("Expires", "0") ∈ success_response_headers base mime path clen lastmod) ∧
    (∀ ctype clen,
      ("Cache-Control", "no-store, must-revalidate") ∈ error_response_headers ctype clen ∧
      ("Pragma", "no-cache") ∈ error_response_headers ctype clen ∧
      ("Expires", "0") ∈ error_response_headers ctype clen) := by
  refine ⟨fun sent => ⟨?_, ?_, ?_⟩,
          fun base mime path clen lastmod => ⟨?_, ?_, ?_⟩,
          fun ctype clen => ⟨?_, ?_, ?_⟩⟩ <;>
    simp [end_headers, cache_headers, success_response_headers, error_response_headers]

/-- Counterexample to C3 as stated: on the path /.js the final dot is
followed by js, so the spec extraction rule yields the extension .js and
the override table then answers application/javascript; but splitext in
the code treats a leading dot of the final component as not starting an
extension, so guess_type looks up the empty extension and answers
application/octet-stream. -/
theorem extension_rule_counterexample :
    spec_extract_ext "/.js" = ".js" ∧
    spec_guess_type no_mime "/.js" = "application/javascript" ∧
    splitextExt "/.js" = "" ∧
    guess_type base_extensions_map no_mime "/.js" = "application/octet-stream" ∧
    guess_type base_extensions_map no_mime "/.js" ≠ spec_guess_type no_mime "/.js" := by
  decide

/-- Claim C3 as amended: the extension the code extracts is the splitext
extension (suffix from the last dot when that dot lies after the last
slash and the final component does not consist of leading dots only),
and this extraction decides the table entry: two paths with the same
splitext extension and the same platform-table answer always get the
same content type. -/
theorem extension_decides_entry (base : List (String × String))
    (g g' : String → Option String) (p q : String)
    (hext : splitextExt p = splitextExt q) (hmime : g p = g' q) :
    guess_type base g p = guess_type base g' q := by
  simp only [guess_type, guess_type_from, hext, hmime]

/-- Witness for the amended C3 at the paths /a/app.js and /b/app.js. -/
theorem extension_decides_entry_witness :
    guess_type base_extensions_map no_mime "/a/app.js" =
      guess_type base_extensions_map no_mime "/b/app.js" :=
  extension_decides_entry base_extensions_map no_mime no_mime
    "/a/app.js" "/b/app.js" (by decide) rfl

/-- Claim C4: a path with no extension (splitext answers the empty
string) gets content type application/octet-stream, whatever the base
table and the platform table are: the empty-extension override entry is
hit by the exact-case lookup. -/
theorem no_extension_octet_stream (base : List (String × String))
    (mime : String → Option String) (p : String)
    (h : splitextExt p = "") :
    guess_type base mime p = "application/octet-stream" := by
  simp [guess_type, guess_type_from, extensions_map, override_entries, h, List.lookup]

/-- Witness for C4 at the extensionless path /Makefile. -/
theorem no_extension_octet_stream_witness :
    guess_type base_extensions_map no_mime "/Makefile" = "application/octet-stream" :=
  no_extension_octet_stream base_extensions_map no_mime "/Makefile" (by decide)

/-- Counterexample to C5 as stated: the extension .JS of /app.JS is none
of .mjs, .js, .json or the empty string, yet the lookup does not fall
back to the platform table: the lowercased second lookup hits the .js
override and answers application/javascript, while the platform-default
computation on a platform whose table maps the path to text/plain would
answer text/plain. -/
theorem fallback_counterexample :
    splitextExt "/app.JS" = ".JS" ∧
    (".JS" ≠ ".mjs" ∧ ".JS" ≠ ".js" ∧ ".JS" ≠ ".json" ∧ ".JS" ≠ "") ∧
    guess_type base_extensions_map platform_text_plain "/app.JS" =
      "application/javascript" ∧
    guess_type_from base_extensions_map platform_text_plain "/app.JS" = "text/plain" ∧
    guess_type base_extensions_map platform_text_plain "/app.JS" ≠
      guess_type_from base_extensions_map platform_text_plain "/app.JS" := by
  decide

/-- Claim C5 as amended: for every path whose extension, after
lowercasing, is none of .mjs, .js, .json and the empty string, the
content type computed by the handler equals the platform/library default
computation, that is, the same guess_type flow over the inherited base
table alone: inherited entries first, then the platform mimetypes guess,
then application/octet-stream as generic binary type. -/
theorem fallback_outside_overrides (base : List (String × String))
    (mime : String → Option String) (p : String)
    (h : override_entries.lookup (strLower (splitextExt p)) = none) :
    guess_type base mime p = guess_type_from base mime p := by
  have hexact : override_entries.lookup (splitextExt p) = none :=
    override_lookup_lower_none h
  simp only [guess_type, guess_type_from, extensions_map,
    lookup_append_of_none hexact, lookup_append_of_none h]

/-- Witness for the amended C5 at the path /style.css on a platform whose
table answers text/css. -/
theorem fallback_outside_overrides_witness :
    override_entries.lookup (strLower (splitextExt "/style.css")) = none ∧
    guess_type base_extensions_map platform_css "/style.css" =
      guess_type_from base_extensions_map platform_css "/style.css" :=
  ⟨by decide,
   fallback_outside_overrides base_extensions_map platform_css "/style.css" (by decide)⟩

/-- Claim C6: on every startup that reaches serving, the working
directory is changed to the directory containing the script at a strictly
earlier position of the effect trace than the serve effect, and the root
directory served is that same directory. -/
theorem chdir_before_serve (d : String) (env : SysEnv)
    (h : (server_main d env).2 = false) :
    ∃ i j : Nat, i < j ∧
      (server_main d env).1.get? i = some (Effect.chdir d) ∧
      (server_main d env).1.get? j = some (Effect.serve d) := by
  obtain ⟨c, b⟩ := env
  cases c
  · simp [server_main] at h
  · cases b
    · simp [server_main] at h
    · exact ⟨0, 3, by decide, rfl, rfl⟩

/-- Witness for C6 at the directory /srv with both system calls
succeeding. -/
theorem chdir_before_serve_witness :
    ∃ i j : Nat, i < j ∧
      (server_main "/srv" ⟨true, true⟩).1.get? i = some (Effect.chdir "/srv") ∧
      (server_main "/srv" ⟨true, true⟩).1.get? j = some (Effect.serve "/srv") :=
  chdir_before_serve "/srv" ⟨true, true⟩ rfl

/-- Claim C7: on a startup whose chdir succeeds, the trace writes exactly
one line to standard output, the line Serving, then the serving
directory, then on http://localhost:5500, and nothing else is written. -/
theorem startup_single_line (d : String) (env : SysEnv)
    (h : env.chdir_ok = true) :
    stdoutLines (server_main d env).1 =
      ["Serving " ++ d ++ " on http://localhost:5500"] := by
  obtain ⟨c, b⟩ := env
  subst h
  have hport : (" on http://localhost:" ++ toString (5500 : Nat)) =
      " on http://localhost:5500" := by decide
  cases b <;>
    simp [server_main, stdoutLines, String.append_assoc, hport]

/-- Witness for C7 at the directory /srv with both system calls
succeeding. -/
theorem startup_single_line_witness :
    stdoutLines (server_main "/srv" ⟨true, true⟩).1 =
      ["Serving /srv on http://localhost:5500"] :=
  startup_single_line "/srv" ⟨true, true⟩ rfl

/-- Claim C8: every bind the startup performs is to host localhost and
port 5500 (the model takes no host or port input, so neither is
configurable); when the bind is rejected the process ends with a
non-zero status and never serves; and no trace ever binds more than
once, so a rejected bind is never retried. -/
theorem fixed_bind_fatal_no_retry (d : String) (env : SysEnv) :
    (∀ h p, Effect.tcpBind h p ∈ (server_main d env).1 →
      h = "localhost" ∧ p = 5500) ∧
    (env.bind_ok = false → (server_main d env).2 = true ∧
      ∀ r, Effect.serve r ∉ (server_main d env).1) ∧
    (server_main d env).1.countP isBind ≤ 1 := by
  obtain ⟨c, b⟩ := env
  cases c <;> cases b <;>
    simp [server_main, isBind, List.countP, List.countP.go]

/-- Witness for C8 at the directory /srv with the bind rejected. -/
theorem fixed_bind_fatal_no_retry_witness :
    (server_main "/srv" ⟨true, false⟩).2 = true ∧
    (server_main "/srv" ⟨true, false⟩).1.countP isBind ≤ 1 :=
  ⟨((fixed_bind_fatal_no_retry "/srv" ⟨true, false⟩).2.1 rfl).1,
   (fixed_bind_fatal_no_retry "/srv" ⟨true, false⟩).2.2⟩

/-- Claim C9: the table is never mutated: running any sequence of
requests against the shared state leaves the state exactly as it was,
and every request in the sequence observes the same initial table, its
answer being the guess_type flow over that one table. -/
theorem table_never_mutated (s : ServerState) (mime : String → Option String)
    (ps : List String) :
    (runRequests s mime ps).1 = s ∧
    (runRequests s mime ps).2 = ps.map (guess_type_from s.table mime) := by
  induction ps with
  | nil => simp [runRequests]
  | cons p ps ih =>
    simp [runRequests, handle_request, ih.1, ih.2]

/-- Claim C10: extension matching is case-insensitive for the overridden
entries: when the exact-case extension is absent from the full table,
the lowercased second lookup applies, so an extension lowercasing to
.mjs or .js gets application/javascript and one lowercasing to .json
gets application/json. -/
theorem uppercase_extension_override (base : List (String × String))
    (mime : String → Option String) (p : String)
    (hnone : (extensions_map base).lookup (splitextExt p) = none) :
    ((strLower (splitextExt p) = ".mjs" ∨ strLower (splitextExt p) = ".js") →
      guess_type base mime p = "application/javascript") ∧
    (strLower (splitextExt p) = ".json" →
      guess_type base mime p = "application/json") := by
  constructor
  · rintro (h | h) <;>
    · simp only [guess_type, guess_type_from, hnone, h]
      simp [extensions_map, override_entries, List.lookup]
  · intro h
    simp only [guess_type, guess_type_from, hnone, h]
    simp [extensions_map, override_entries, List.lookup]

/-- Witness for C10 at the path /app.MJS with the CPython 3.9 inherited
base table and an empty platform table. -/
theorem uppercase_extension_override_witness :
    guess_type base_extensions_map no_mime "/app.MJS" = "application/javascript" :=
  (uppercase_extension_override base_extensions_map no_mime "/app.MJS"
    (by decide)).1 (Or.inl (by decide))
